import Mathlib

/-!
Shallow embedding of the ZenDeskChatBot repository (src/app.py, src/llm.py).

The Flask application keeps four pieces of state:
  * `chat_sessions` — an in-memory dict from session id to the ordered
    message history (src/app.py line 32);
  * the `sessions/` directory of per-session CSV logs, one file per
    session id, written by `log_csv` (src/app.py lines 51-58);
  * the `training_docs/` directory of knowledge documents;
  * the global `SYSTEM_PROMPT` string (src/app.py line 27, mutable via
    the system-prompt endpoint).

Python dicts and directories are modelled as association lists keyed by
strings; a key is present in the list exactly when the dict holds it /
the file exists.  Wall-clock timestamps are abstracted as `Nat` values
supplied by the caller; the random `uuid4().hex[:12]` fresh session id is
an explicit argument.  The remote HTTP call performed by `call_llm` is
abstracted as an `LlmOutcome` input describing what the network did.
-/

/-- One message of a chat history: `{"role": ..., "content": ...}`
(src/app.py lines 83 and 86). -/
structure Message where
  role : String
  content : String
deriving DecidableEq, Repr

/-- One data row of a per-session CSV log, after the header row:
`[timestamp, session_id, role, message]` (src/app.py line 58). -/
structure LogRecord where
  timestamp : Nat
  session_id : String
  role : String
  message : String
deriving DecidableEq, Repr

/-- A directory entry of `training_docs/`: whether `Path.is_file()` holds,
and the result of `read_text` — `none` models a read that raises. -/
structure Doc where
  is_file : Bool
  readResult : Option String
deriving DecidableEq, Repr

/-- The mutable state of the application process together with the two
flat directories it persists to. -/
structure AppState where
  chat_sessions : List (String × List Message)
  session_logs : List (String × List LogRecord)
  training_docs : List (String × Doc)
  system_prompt : String
deriving DecidableEq, Repr

/-- Dict lookup: `m[k]` / `m.get(k)` on a Python dict modelled as an
association list. -/
def dictGet (m : List (String × α)) (k : String) : Option α :=
  match m with
  | [] => none
  | (k₀, v₀) :: rest => if k₀ = k then some v₀ else dictGet rest k

/-- Dict update `m[k] = v`: replaces the binding when the key is present,
appends it otherwise. -/
def dictSet (m : List (String × α)) (k : String) (v : α) : List (String × α) :=
  match m with
  | [] => [(k, v)]
  | (k₀, v₀) :: rest => if k₀ = k then (k, v) :: rest else (k₀, v₀) :: dictSet rest k v

/-- Dict deletion `del m[k]` (also models unlinking a file). -/
def dictErase (m : List (String × α)) (k : String) : List (String × α) :=
  match m with
  | [] => []
  | (k₀, v₀) :: rest => if k₀ = k then dictErase rest k else (k₀, v₀) :: dictErase rest k


/-! ### Python string primitives

`str.strip()` and string comparison are modelled directly so that every
definition evaluates by kernel reduction. -/

/-- The code point of a character; Python compares strings code point by
code point. -/
def charCode (c : Char) : Nat := c.val.toNat

/-- Lexicographic `xs <= ys` on code-point lists, as Python compares
strings. -/
def lexLe : List Char → List Char → Bool
  | [], _ => true
  | _ :: _, [] => false
  | c :: cs, d :: ds =>
    if charCode c < charCode d then true
    else if charCode d < charCode c then false
    else lexLe cs ds

/-- Python string comparison `a <= b`. -/
def strLe (a b : String) : Bool := lexLe a.data b.data


/-- The Python `str.strip()` operation: drop leading and trailing whitespace. -/
def strip (s : String) : String :=
  ⟨List.reverse (List.dropWhile Char.isWhitespace
    (List.reverse (List.dropWhile Char.isWhitespace s.data)))⟩

/-! ### Knowledge aggregation (src/app.py lines 36-44, `load_knowledge`) -/

/-- Ascending filename order used by the Python `sorted(TRAINING_DOCS_DIR.iterdir())`
on entries of one directory. -/
def byNameAsc (a b : String × Doc) : Prop := strLe a.1 b.1 = true

instance : DecidableRel byNameAsc :=
  fun a b => inferInstanceAs (Decidable (strLe a.1 b.1 = true))


/-- The block built for one readable file: `f"--- {f.name} ---\n{content}"`
(src/app.py line 41). -/
def docBlock (name content : String) : String :=
  "--- " ++ name ++ " ---\n" ++ content

/-- Model of `load_knowledge` (src/app.py lines 36-44): iterate the training-docs
directory in sorted order, keep regular files whose `read_text` succeeds,
render each as a `docBlock`, and join the blocks with a blank line. -/
def load_knowledge (docs : List (String × Doc)) : String :=
  let blocks := (List.insertionSort byNameAsc docs).foldl
    (fun acc e =>
      if e.2.is_file then
        match e.2.readResult with
        | some content => acc ++ [docBlock e.1 content]
        | none => acc
      else acc) []
  String.intercalate "\n\n" blocks

/-- The block list described by the spec for a given directory listing:
one `docBlock` per readable regular file, unreadable files skipped. -/
def knowledgeBlocks (docs : List (String × Doc)) : List String :=
  docs.filterMap fun e =>
    if e.2.is_file then (e.2.readResult).map (fun c => docBlock e.1 c) else none

/-! ### LLM client (src/llm.py) -/

/-- The knowledge block of the system message (src/llm.py lines 29-34),
wrapping the trimmed knowledge context. -/
def knowledge_block (t : String) : String :=
  "=== KNOWLEDGE BASE ===\n" ++
  "Use this information to answer questions. If the answer isn\x27t here, say so.\n\n" ++
  t ++ "\n" ++
  "=== END KNOWLEDGE BASE ==="

/-- The value `full_system` of `call_llm` (src/llm.py lines 24-35): the trimmed
system prompt (when non-empty) followed by the knowledge block (when the
knowledge context trims non-empty), joined by a blank line; the generic
helpful-assistant text when both parts are absent. -/
def build_system_message (system_prompt knowledge_context : String) : String :=
  let system_parts : List String :=
    (if strip system_prompt = "" then [] else [strip system_prompt]) ++
    (if strip knowledge_context = "" then [] else [knowledge_block (strip knowledge_context)])
  if system_parts.isEmpty then "You are a helpful assistant."
  else String.intercalate "\n\n" system_parts

/-- What `e.response` offered when the request raised: whether
`e.response.json()` succeeded (`json_body` is its `json.dumps`), and the
HTTP status code. -/
structure RespInfo where
  json_body : Option String
  status_code : Nat
deriving DecidableEq, Repr

/-- Outcome of the `requests.post` / `raise_for_status` / JSON-indexing
block of `call_llm` (src/llm.py lines 51-54): either the extracted
message content, or the exception (its `str@` text and, when the
exception carries a response, the data of that response). -/
inductive LlmOutcome where
  | success (content : String)
  | failure (exn_msg : String) (resp : Option RespInfo)
deriving DecidableEq, Repr

/-- The string `error_msg` as assembled in the except-branch of `call_llm`
(src/llm.py lines 56-61). -/
def llm_error_msg (exn_msg : String) (resp : Option RespInfo) : String :=
  match resp with
  | none => exn_msg
  | some r =>
    match r.json_body with
    | some j => exn_msg ++ " | " ++ j
    | none => exn_msg ++ " | Status " ++ toString r.status_code

/-- The value `call_llm` returns for a given outcome of its HTTP block
(src/llm.py lines 51-63): the reply content on success, the formatted
error string on any failure — it never re-raises. -/
def call_llm (outcome : LlmOutcome) : String :=
  match outcome with
  | .success content => content
  | .failure m resp => "Error connecting to AI service. (" ++ llm_error_msg m resp ++ ")"

/-! ### Session log (src/app.py lines 51-58, `log_csv`) -/

/-- Model of `log_csv(sid, role, content)`: opens `sessions/{sid}.csv` in append
mode (creating it, with the header row, when absent — presence of the key
models existence of the file, the header is implicit) and appends one
data row. -/
def log_csv (logs : List (String × List LogRecord)) (sid : String) (now : Nat)
    (role content : String) : List (String × List LogRecord) :=
  let rows := (dictGet logs sid).getD []
  dictSet logs sid (rows ++ [⟨now, sid, role, content⟩])

/-! ### Chat endpoint (src/app.py lines 75-88, `api_chat`) -/

/-- The JSON response of the chat endpoint: `{"reply": ..., "session_id": ...}`
on success, `({"error": ...}, 400)` on an empty message. -/
inductive ChatResult where
  | ok (reply : String) (session_id : String)
  | badRequest (error : String)
deriving DecidableEq, Repr

/-- The observable effect of one chat request: the response, the `sid`
cookie of the Flask session after the request, the new application state,
and whether `call_llm` was invoked. -/
structure ChatStep where
  result : ChatResult
  cookie : Option String
  state : AppState
  llm_called : Bool
deriving Repr

/-- Model of `api_chat` (src/app.py lines 75-88).  `body_message` is
`request.json.get("message", "")`; `cookie` is the `sid` entry of the
Flask cookie session (`get_session_id`, lines 46-49, returns it or stores
the fresh uuid `freshSid`); `llm` abstracts `call_llm` as a function of
the history, system prompt and knowledge context it is passed. -/
def api_chat (body_message : Option String) (cookie : Option String) (freshSid : String)
    (now : Nat) (llm : List Message → String → String → String) (st : AppState) : ChatStep :=
  let msg := strip (body_message.getD "")
  if msg = "" then ⟨ChatResult.badRequest "Empty message", cookie, st, false⟩
  else
    let sid := cookie.getD freshSid
    let hist₁ := ((dictGet st.chat_sessions sid).getD []) ++ [⟨"user", msg⟩]
    let reg₁ := dictSet st.chat_sessions sid hist₁
    let logs₁ := log_csv st.session_logs sid now "user" msg
    let reply := llm hist₁ st.system_prompt (load_knowledge st.training_docs)
    let reg₂ := dictSet reg₁ sid (((dictGet reg₁ sid).getD []) ++ [⟨"assistant", reply⟩])
    let logs₂ := log_csv logs₁ sid now "assistant" reply
    ⟨ChatResult.ok reply sid, some sid, ⟨reg₂, logs₂, st.training_docs, st.system_prompt⟩, true⟩

/-! ### Session reset (src/app.py lines 90-97, `new_session`) -/

/-- The observable effect of `new_session`: the returned session id, the
cookie after the request, and the new application state. -/
structure SessionStep where
  session_id : String
  cookie : Option String
  state : AppState
deriving Repr

/-- Model of `new_session` (src/app.py lines 90-97): pops the `sid` cookie, drops
the popped id from `chat_sessions` when present, stores the fresh uuid as
the new cookie and installs an empty history for it. -/
def new_session (cookie : Option String) (freshSid : String) (st : AppState) : SessionStep :=
  let reg₁ := match cookie with
    | some old => if (dictGet st.chat_sessions old).isSome
                  then dictErase st.chat_sessions old else st.chat_sessions
    | none => st.chat_sessions
  let reg₂ := dictSet reg₁ freshSid []
  ⟨freshSid, some freshSid, ⟨reg₂, st.session_logs, st.training_docs, st.system_prompt⟩⟩

/-! ### File management (src/app.py lines 124-167) -/

/-- The `ALLOWED_EXT` constant (src/app.py line 25).  It is defined by
the application but never consulted by any handler. -/
def ALLOWED_EXT : List String :=
  ["txt", "md", "csv", "json", "html", "xml", "yml", "yaml", "log", "docx", "pdf"]

/-- One entry of `request.files.getlist("file")`: the client-supplied
filename and the bytes that `f.save` would write. -/
structure UploadedFile where
  filename : String
  content : String
deriving DecidableEq, Repr

/-- Model of `upload_file` (src/app.py lines 133-142), after the admin check: for
each posted file with a non-empty filename, sanitize the name with
`secure_filename` (passed in as `sanitize`, an external collaborator) and
save it into the training-docs directory; return the accepted names and
the new directory.  No extension check is performed. -/
def upload_file (sanitize : String → String) (files : List UploadedFile)
    (docs : List (String × Doc)) : List String × List (String × Doc) :=
  files.foldl
    (fun acc f =>
      if f.filename = "" then acc
      else
        let name := sanitize f.filename
        (acc.1 ++ [name], dictSet acc.2 name ⟨true, some f.content⟩))
    ([], docs)

/-- Response of the document read endpoint. -/
inductive FileResult where
  | notFound
  | ok (name : String) (content : String)
  | readError
deriving DecidableEq, Repr

/-- Model of `get_file` (src/app.py lines 144-150), after the admin check: resolve
the sanitized name in the training-docs directory; 404 when the path does
not exist, otherwise return the name and the text `read_text` yields
(`readError` models `read_text` raising, which the handler does not
catch). -/
def get_file (sanitize : String → String) (filename : String)
    (docs : List (String × Doc)) : FileResult :=
  match dictGet docs (sanitize filename) with
  | none => FileResult.notFound
  | some d =>
    match d.readResult with
    | some content => FileResult.ok (sanitize filename) content
    | none => FileResult.readError

/-- Response of the document update endpoint.  `writeError` models
`write_text` raising — for instance `IsADirectoryError` when the
existing path is not a regular file — which the handler does not catch
(the framework turns it into a 500) and which writes nothing. -/
inductive UpdateResult where
  | notFound
  | success
  | writeError
deriving DecidableEq, Repr

/-- Model of `update_file` (src/app.py lines 152-159), after the admin check: 404
when the sanitized path does not exist; when it exists and is a regular
file, `write_text` replaces the content with
`request.json.get("content", "")` and the handler reports success; when
it exists but is not a regular file (a directory), `write_text` raises
and nothing is written. -/
def update_file (sanitize : String → String) (filename : String)
    (body_content : Option String) (docs : List (String × Doc)) :
    UpdateResult × List (String × Doc) :=
  match dictGet docs (sanitize filename) with
  | none => (UpdateResult.notFound, docs)
  | some d =>
    if d.is_file then
      (UpdateResult.success, dictSet docs (sanitize filename) ⟨true, some (body_content.getD "")⟩)
    else (UpdateResult.writeError, docs)

/-! ### Session-log listing (src/app.py lines 171-182, `list_sessions`) -/

/-- One file of the sessions directory as `list_sessions` sees it: the
stem (the file on disk is `stem ++ ".csv"`), its modification time, and
the number of lines counted when opening it succeeds (`none` models the
open or the count raising). -/
structure LogFile where
  stem : String
  mtime : Nat
  lineCount : Option Nat
deriving DecidableEq, Repr

/-- Descending path order used by `sorted(SESSIONS_DIR.glob("*.csv"), reverse=True)`
on files of one directory. -/
def byPathDesc (a b : LogFile) : Prop :=
  strLe (b.stem ++ ".csv") (a.stem ++ ".csv") = true

instance : DecidableRel byPathDesc :=
  fun a b => inferInstanceAs (Decidable (strLe (b.stem ++ ".csv") (a.stem ++ ".csv") = true))


/-- One summary row of the listing:
`{"session_id": f.stem, "message_count": ..., "modified": ...}`. -/
structure SessionSummary where
  session_id : String
  message_count : Nat
  modified : Nat
deriving DecidableEq, Repr

/-- The summary `list_sessions` builds for one log file (src/app.py lines
176-181): `max(lines - 1, 0)` data rows when counting succeeds (`Nat`
subtraction already truncates at zero exactly like the `max`), `0` when
opening or counting raises. -/
def summarize (f : LogFile) : SessionSummary :=
  ⟨f.stem, match f.lineCount with | some n => max (n - 1) 0 | none => 0, f.mtime⟩

/-- Model of `list_sessions` (src/app.py lines 171-182), after the admin check:
summarize the `*.csv` files of the sessions directory in
reverse-sorted-path order. -/
def list_sessions (files : List LogFile) : List SessionSummary :=
  (List.insertionSort byPathDesc files).map summarize

/-! ### System prompt (src/app.py lines 212-217, `set_prompt`) -/

/-- The observable effect of the system-prompt PUT endpoint. -/
structure SetPromptStep where
  success : Bool
  state : AppState
deriving Repr

/-- Model of `set_prompt` (src/app.py lines 212-217), after the admin check:
`SYSTEM_PROMPT = request.json.get("prompt", SYSTEM_PROMPT)`, then report
success.  Here `body` is the JSON object of the request restricted to its string
fields. -/
def set_prompt (body : List (String × String)) (st : AppState) : SetPromptStep :=
  let new_prompt := (dictGet body "prompt").getD st.system_prompt
  ⟨true, ⟨st.chat_sessions, st.session_logs, st.training_docs, new_prompt⟩⟩

/-! ### Helper lemmas -/

theorem dictGet_set_self (m : List (String × α)) (k : String) (v : α) :
    dictGet (dictSet m k v) k = some v := by
  induction m with
  | nil => simp [dictGet, dictSet]
  | cons p rest ih =>
    obtain ⟨k₀, v₀⟩ := p
    by_cases h : k₀ = k
    · simp [dictGet, dictSet, h]
    · simp [dictGet, dictSet, h, ih]

theorem dictGet_set_ne (m : List (String × α)) (k k₁ : String) (v : α) (h : k₁ ≠ k) :
    dictGet (dictSet m k v) k₁ = dictGet m k₁ := by
  induction m with
  | nil => simp [dictGet, dictSet, Ne.symm h]
  | cons p rest ih =>
    obtain ⟨k₀, v₀⟩ := p
    by_cases h₀ : k₀ = k
    · subst h₀
      simp [dictGet, dictSet, Ne.symm h]
    · simp [dictGet, dictSet, h₀, ih]

theorem dictGet_erase_self (m : List (String × α)) (k : String) :
    dictGet (dictErase m k) k = none := by
  induction m with
  | nil => simp [dictGet, dictErase]
  | cons p rest ih =>
    obtain ⟨k₀, v₀⟩ := p
    by_cases h : k₀ = k <;> simp [dictGet, dictErase, h, ih]

theorem dictGet_erase_ne (m : List (String × α)) (k k₁ : String) (h : k₁ ≠ k) :
    dictGet (dictErase m k) k₁ = dictGet m k₁ := by
  induction m with
  | nil => simp [dictGet, dictErase]
  | cons p rest ih =>
    obtain ⟨k₀, v₀⟩ := p
    by_cases h₀ : k₀ = k
    · subst h₀
      simp [dictGet, dictErase, Ne.symm h, ih]
    · simp [dictGet, dictErase, h₀, ih]

theorem lexLe_total : ∀ xs ys : List Char, lexLe xs ys = true ∨ lexLe ys xs = true := by
  intro xs
  induction xs with
  | nil => intro ys; left; simp [lexLe]
  | cons c cs ih =>
    intro ys
    cases ys with
    | nil => right; simp [lexLe]
    | cons d ds =>
      by_cases h₁ : charCode c < charCode d
      · left; simp [lexLe, h₁]
      · by_cases h₂ : charCode d < charCode c
        · right; simp [lexLe, h₂]
        · rcases ih ds with h | h
          · left; simp [lexLe, h₁, h₂, h]
          · right; simp [lexLe, h₁, h₂, h]

theorem lexLe_trans :
    ∀ xs ys zs : List Char, lexLe xs ys = true → lexLe ys zs = true → lexLe xs zs = true := by
  intro xs
  induction xs with
  | nil => intro ys zs _ _; simp [lexLe]
  | cons c cs ih =>
    intro ys zs hxy hyz
    cases ys with
    | nil => simp [lexLe] at hxy
    | cons d ds =>
      cases zs with
      | nil => simp [lexLe] at hyz
      | cons e es =>
        simp only [lexLe] at hxy hyz ⊢
        rcases Nat.lt_trichotomy (charCode c) (charCode d) with hcd | hcd | hcd
        · rcases Nat.lt_trichotomy (charCode d) (charCode e) with hde | hde | hde
          · have h : charCode c < charCode e := by omega
            simp [h]
          · have h : charCode c < charCode e := by omega
            simp [h]
          · have h₁ : ¬ charCode d < charCode e := by omega
            simp [h₁, hde] at hyz
        · rcases Nat.lt_trichotomy (charCode d) (charCode e) with hde | hde | hde
          · have h : charCode c < charCode e := by omega
            simp [h]
          · have h₁ : ¬ charCode c < charCode e := by omega
            have h₂ : ¬ charCode e < charCode c := by omega
            have h₃ : ¬ charCode c < charCode d := by omega
            have h₄ : ¬ charCode d < charCode c := by omega
            have h₅ : ¬ charCode d < charCode e := by omega
            have h₆ : ¬ charCode e < charCode d := by omega
            simp [h₃, h₄] at hxy
            simp [h₅, h₆] at hyz
            simp [h₁, h₂]
            exact ih ds es hxy hyz
          · have h₁ : ¬ charCode d < charCode e := by omega
            simp [h₁, hde] at hyz
        · have h₁ : ¬ charCode c < charCode d := by omega
          simp [h₁, hcd] at hxy

theorem intercalate_pair (s a b : String) : String.intercalate s [a, b] = a ++ s ++ b := rfl

theorem intercalate_single (s a : String) : String.intercalate s [a] = a := rfl

theorem foldl_knowledgeBlocks (l : List (String × Doc)) :
    ∀ acc : List String,
      l.foldl
        (fun acc e =>
          if e.2.is_file then
            match e.2.readResult with
            | some content => acc ++ [docBlock e.1 content]
            | none => acc
          else acc) acc
      = acc ++ knowledgeBlocks l := by
  induction l with
  | nil => intro acc; simp [knowledgeBlocks]
  | cons e rest ih =>
    intro acc
    cases hf : e.2.is_file
    · simp [List.foldl, hf, ih, knowledgeBlocks]
    · cases hr : e.2.readResult with
      | none => simp [List.foldl, hf, hr, ih, knowledgeBlocks]
      | some content => simp [List.foldl, hf, hr, ih, knowledgeBlocks]

/-- C3: knowledge aggregation returns the blank-line-joined concatenation
of one `--- name ---` + newline + content block per readable regular
file, in filename-sorted order (the sorted pass is a sorted permutation
of the directory listing), with unreadable files silently skipped; on the
example of the spec, `a.txt = "X"` and `b.txt = "Y"` yield the `a.txt` block
before the `b.txt` block. -/
theorem load_knowledge_sorted_blocks :
    ∀ docs : List (String × Doc),
      load_knowledge docs =
          String.intercalate "\n\n" (knowledgeBlocks (List.insertionSort byNameAsc docs))
      ∧ List.Sorted byNameAsc (List.insertionSort byNameAsc docs)
      ∧ List.Perm (List.insertionSort byNameAsc docs) docs
      ∧ load_knowledge [("b.txt", ⟨true, some "Y"⟩), ("a.txt", ⟨true, some "X"⟩)] =
          "--- a.txt ---\nX\n\n--- b.txt ---\nY" := by
  intro docs
  haveI : IsTotal (String × Doc) byNameAsc := ⟨fun a b => lexLe_total a.1.data b.1.data⟩
  haveI : IsTrans (String × Doc) byNameAsc := ⟨fun _ _ _ h₁ h₂ => lexLe_trans _ _ _ h₁ h₂⟩
  refine ⟨?_, List.sorted_insertionSort byNameAsc docs,
    List.perm_insertionSort byNameAsc docs, by decide⟩
  simp [load_knowledge, foldl_knowledgeBlocks]

/-- C4 counterexample: with two session logs whose reverse filename order
disagrees with recency (`aaaa.csv` modified at time 10, `bbbb.csv` at
time 5), the listing puts `bbbb` — the older log — first, so the listing
is not ordered most-recent-modification first. -/
theorem list_sessions_not_mtime_ordered :
    list_sessions [⟨"aaaa", 10, some 3⟩, ⟨"bbbb", 5, some 3⟩] =
        [⟨"bbbb", 2, 5⟩, ⟨"aaaa", 2, 10⟩]
    ∧ ¬ List.Pairwise (fun a b : SessionSummary => b.modified ≤ a.modified)
        (list_sessions [⟨"aaaa", 10, some 3⟩, ⟨"bbbb", 5, some 3⟩]) := by
  decide

/-- C4 amended: the session-log listing returns one summary per existing
log (a permutation of the per-file summaries), ordered by reverse
lexicographic filename (descending `{stem}.csv` order), not by
modification time. -/
theorem list_sessions_path_desc_order :
    ∀ files : List LogFile,
      List.Pairwise
          (fun a b : SessionSummary =>
            strLe (b.session_id ++ ".csv") (a.session_id ++ ".csv") = true)
          (list_sessions files)
      ∧ List.Perm (list_sessions files) (files.map summarize) := by
  intro files
  haveI : IsTotal LogFile byPathDesc :=
    ⟨fun a b => (lexLe_total (a.stem ++ ".csv").data (b.stem ++ ".csv").data).symm⟩
  haveI : IsTrans LogFile byPathDesc := ⟨fun _ _ _ h₁ h₂ => lexLe_trans _ _ _ h₂ h₁⟩
  constructor
  · have hs : List.Pairwise byPathDesc (List.insertionSort byPathDesc files) :=
      List.sorted_insertionSort byPathDesc files
    exact List.pairwise_map.mpr (hs.imp (fun {a b} hab => hab))
  · exact (List.perm_insertionSort byPathDesc files).map summarize

/-- C5 counterexample: on an empty document store, replacing the content
of `a.txt` returns not-found and creates nothing — reading it back still
yields not-found instead of the written text, so the write does not
create the document when it is absent. -/
theorem update_file_absent_not_created :
    update_file (fun s => s) "a.txt" (some "X") [] = (UpdateResult.notFound, [])
    ∧ get_file (fun s => s) "a.txt"
        (update_file (fun s => s) "a.txt" (some "X") []).2 = FileResult.notFound := by
  decide

/-- C5 amended: when the sanitized name refers to an existing regular
file, the replace-content operation reports success and overwrites it,
and reading the document back yields byte-identical text; when the
document is absent, the operation returns not-found and leaves the store
unchanged (it does not create the document); when the name refers to an
existing non-file entry, `write_text` raises and the store is likewise
unchanged. -/
theorem update_then_get_roundtrip (sanitize : String → String)
    (filename content : String) (docs : List (String × Doc)) :
    (∀ d : Doc, dictGet docs (sanitize filename) = some d → d.is_file = true →
      (update_file sanitize filename (some content) docs).1 = UpdateResult.success
      ∧ get_file sanitize filename (update_file sanitize filename (some content) docs).2 =
          FileResult.ok (sanitize filename) content)
    ∧ (dictGet docs (sanitize filename) = none →
      update_file sanitize filename (some content) docs = (UpdateResult.notFound, docs))
    ∧ (∀ d : Doc, dictGet docs (sanitize filename) = some d → d.is_file = false →
      update_file sanitize filename (some content) docs = (UpdateResult.writeError, docs)) := by
  refine ⟨fun d hd hf => ?_, fun h => ?_, fun d hd hf => ?_⟩
  · simp [update_file, get_file, hd, hf, dictGet_set_self]
  · simp [update_file, h]
  · simp [update_file, hd, hf]

/-- C5 amended, evaluated: `a.txt` is a regular file holding `"old"`;
replacing its content with `"NEW"` succeeds, and reading it back yields
exactly `"NEW"`. -/
theorem update_then_get_roundtrip_witness :
    (dictGet [("a.txt", (⟨true, some "old"⟩ : Doc))] ((fun s => s) "a.txt") =
        some ⟨true, some "old"⟩
      ∧ Doc.is_file ⟨true, some "old"⟩ = true)
    ∧ ((update_file (fun s => s) "a.txt" (some "NEW") [("a.txt", ⟨true, some "old"⟩)]).1 =
          UpdateResult.success
       ∧ get_file (fun s => s) "a.txt"
           (update_file (fun s => s) "a.txt" (some "NEW") [("a.txt", ⟨true, some "old"⟩)]).2 =
          FileResult.ok ((fun s => s) "a.txt") "NEW") :=
  ⟨⟨by decide, by decide⟩,
   (update_then_get_roundtrip (fun s => s) "a.txt" "NEW" [("a.txt", ⟨true, some "old"⟩)]).1
     ⟨true, some "old"⟩ (by decide) (by decide)⟩

/-- C6: the upload handler never consults `ALLOWED_EXT` — a file named
`evil.exe`, whose extension is outside the accepted set, is saved into
the training-docs directory and reported as accepted. -/
theorem upload_accepts_disallowed_extension :
    ¬ ("exe" ∈ ALLOWED_EXT)
    ∧ upload_file (fun s => s) [⟨"evil.exe", "MZ"⟩] [] =
        (["evil.exe"], [("evil.exe", ⟨true, some "MZ"⟩)]) := by
  decide

/-- C7: the effective system message is the trimmed system prompt (when
non-empty) and the delimited knowledge block wrapping the trimmed
knowledge context (when non-empty), joined by a blank line; when both
trim to empty it is the generic helpful-assistant text. -/
theorem build_system_message_cases (sp kc : String) :
    (strip sp ≠ "" → strip kc ≠ "" →
      build_system_message sp kc = strip sp ++ "\n\n" ++ knowledge_block (strip kc))
    ∧ (strip sp ≠ "" → strip kc = "" → build_system_message sp kc = strip sp)
    ∧ (strip sp = "" → strip kc ≠ "" →
      build_system_message sp kc = knowledge_block (strip kc))
    ∧ (strip sp = "" → strip kc = "" →
      build_system_message sp kc = "You are a helpful assistant.") := by
  refine ⟨fun h₁ h₂ => ?_, fun h₁ h₂ => ?_, fun h₁ h₂ => ?_, fun h₁ h₂ => ?_⟩ <;>
    simp [build_system_message, h₁, h₂, intercalate_pair, intercalate_single]

/-- C7, evaluated: a whitespace-only system prompt together with the
knowledge context `" KB "` yields exactly the delimited knowledge block
around the trimmed context. -/
theorem build_system_message_cases_witness :
    build_system_message "  " " KB " = knowledge_block (strip " KB ") :=
  (build_system_message_cases "  " " KB ").2.2.1 (by decide) (by decide)

/-- C1: for a chat request whose message is non-empty after trimming,
`api_chat` appends exactly one user message and then exactly one
assistant message, in that order, both to the in-memory registry entry
for the session id of the caller and to the durable per-session log, and
returns the assistant reply together with the session id. -/
theorem chat_appends_user_then_assistant
    (body_message cookie : Option String) (freshSid : String) (now : Nat)
    (llm : List Message → String → String → String) (st : AppState)
    (h : strip (body_message.getD "") ≠ "") :
    let msg := strip (body_message.getD "")
    let sid := cookie.getD freshSid
    let hist₀ := (dictGet st.chat_sessions sid).getD []
    let rows₀ := (dictGet st.session_logs sid).getD []
    let reply := llm (hist₀ ++ [⟨"user", msg⟩]) st.system_prompt (load_knowledge st.training_docs)
    let step := api_chat body_message cookie freshSid now llm st
    step.result = ChatResult.ok reply sid
    ∧ step.cookie = some sid
    ∧ dictGet step.state.chat_sessions sid =
        some (hist₀ ++ [⟨"user", msg⟩, ⟨"assistant", reply⟩])
    ∧ dictGet step.state.session_logs sid =
        some (rows₀ ++ [⟨now, sid, "user", msg⟩, ⟨now, sid, "assistant", reply⟩]) := by
  simp only [api_chat, log_csv, if_neg h]
  simp [dictGet_set_self, List.append_assoc]

/-- C1, evaluated: on a fresh state, the message `" hi "` is stored as
the trimmed user message `"hi"` followed by the assistant reply in both
the registry entry and the log, and the reply is returned with the
session id. -/
theorem chat_appends_user_then_assistant_witness :
    (api_chat (some " hi ") none "s1" 7 (fun _ _ _ => "ok!") ⟨[], [], [], "P"⟩).result =
        ChatResult.ok "ok!" "s1"
    ∧ (api_chat (some " hi ") none "s1" 7 (fun _ _ _ => "ok!") ⟨[], [], [], "P"⟩).cookie =
        some "s1"
    ∧ dictGet (api_chat (some " hi ") none "s1" 7 (fun _ _ _ => "ok!")
          ⟨[], [], [], "P"⟩).state.chat_sessions "s1" =
        some [⟨"user", "hi"⟩, ⟨"assistant", "ok!"⟩]
    ∧ dictGet (api_chat (some " hi ") none "s1" 7 (fun _ _ _ => "ok!")
          ⟨[], [], [], "P"⟩).state.session_logs "s1" =
        some [⟨7, "s1", "user", "hi"⟩, ⟨7, "s1", "assistant", "ok!"⟩] :=
  chat_appends_user_then_assistant (some " hi ") none "s1" 7 (fun _ _ _ => "ok!")
    ⟨[], [], [], "P"⟩ (by decide)

/-- C2: any failure of the LLM call yields the formatted human-readable
error string rather than an exception, and the chat handler stores that
string as an ordinary assistant message in the registry and the log and
returns it with a success response, never as a request-level error. -/
theorem llm_failure_returned_as_ordinary_reply
    (exn_msg : String) (resp : Option RespInfo)
    (body_message cookie : Option String) (freshSid : String) (now : Nat) (st : AppState)
    (h : strip (body_message.getD "") ≠ "") :
    call_llm (LlmOutcome.failure exn_msg resp) =
        "Error connecting to AI service. (" ++ llm_error_msg exn_msg resp ++ ")"
    ∧ (let errStr := call_llm (LlmOutcome.failure exn_msg resp)
       let msg := strip (body_message.getD "")
       let sid := cookie.getD freshSid
       let hist₀ := (dictGet st.chat_sessions sid).getD []
       let rows₀ := (dictGet st.session_logs sid).getD []
       let step := api_chat body_message cookie freshSid now
         (fun _ _ _ => call_llm (LlmOutcome.failure exn_msg resp)) st
       step.result = ChatResult.ok errStr sid
       ∧ dictGet step.state.chat_sessions sid =
           some (hist₀ ++ [⟨"user", msg⟩, ⟨"assistant", errStr⟩])
       ∧ dictGet step.state.session_logs sid =
           some (rows₀ ++ [⟨now, sid, "user", msg⟩, ⟨now, sid, "assistant", errStr⟩])) := by
  refine ⟨rfl, ?_⟩
  simp only [api_chat, log_csv, if_neg h]
  simp [dictGet_set_self, List.append_assoc]

/-- C2, evaluated: a transport failure with message `"timeout"` is
returned as the error string and stored as the assistant message of an
otherwise successful chat exchange. -/
theorem llm_failure_returned_as_ordinary_reply_witness :
    call_llm (LlmOutcome.failure "timeout" none) =
        "Error connecting to AI service. (" ++ llm_error_msg "timeout" none ++ ")"
    ∧ ((api_chat (some "hello") none "s2" 3
          (fun _ _ _ => call_llm (LlmOutcome.failure "timeout" none))
          ⟨[], [], [], "P"⟩).result =
        ChatResult.ok "Error connecting to AI service. (timeout)" "s2"
      ∧ dictGet (api_chat (some "hello") none "s2" 3
            (fun _ _ _ => call_llm (LlmOutcome.failure "timeout" none))
            ⟨[], [], [], "P"⟩).state.chat_sessions "s2" =
          some [⟨"user", "hello"⟩,
            ⟨"assistant", "Error connecting to AI service. (timeout)"⟩]
      ∧ dictGet (api_chat (some "hello") none "s2" 3
            (fun _ _ _ => call_llm (LlmOutcome.failure "timeout" none))
            ⟨[], [], [], "P"⟩).state.session_logs "s2" =
          some [⟨3, "s2", "user", "hello"⟩,
            ⟨3, "s2", "assistant", "Error connecting to AI service. (timeout)"⟩]) :=
  llm_failure_returned_as_ordinary_reply "timeout" none (some "hello") none "s2" 3
    ⟨[], [], [], "P"⟩ (by decide)

/-- C8: resetting the session of id `S` returns the fresh identifier
(distinct from `S` whenever the uuid generator is fresh), removes the
history of `S` from the registry, installs an empty history for the new
id, and leaves every durable log — in particular the log of `S` — and
the document directory unchanged. -/
theorem new_session_resets_registry (S freshSid : String) (st : AppState)
    (h : freshSid ≠ S) :
    (new_session (some S) freshSid st).session_id = freshSid
    ∧ (new_session (some S) freshSid st).session_id ≠ S
    ∧ dictGet (new_session (some S) freshSid st).state.chat_sessions S = none
    ∧ dictGet (new_session (some S) freshSid st).state.chat_sessions freshSid = some []
    ∧ (new_session (some S) freshSid st).state.session_logs = st.session_logs
    ∧ (new_session (some S) freshSid st).state.training_docs = st.training_docs := by
  have hset : ∀ (m : List (String × List Message)) (v : List Message),
      dictGet (dictSet m freshSid v) S = dictGet m S :=
    fun m v => dictGet_set_ne m freshSid S v (Ne.symm h)
  refine ⟨rfl, h, ?_, ?_, rfl, rfl⟩
  · cases hp : dictGet st.chat_sessions S with
    | none => simp [new_session, hp, hset]
    | some v => simp [new_session, hp, hset, dictGet_erase_self]
  · simp [new_session, dictGet_set_self]

/-- C8, evaluated: resetting the session `"old1"`, whose registry entry
holds one message and whose log holds one record, empties its registry
entry, installs `[]` under `"new1"` and keeps the log intact. -/
theorem new_session_resets_registry_witness :
    (new_session (some "old1") "new1"
        ⟨[("old1", [⟨"user", "x"⟩])], [("old1", [⟨0, "old1", "user", "x"⟩])], [], "p"⟩).session_id =
        "new1"
    ∧ (new_session (some "old1") "new1"
        ⟨[("old1", [⟨"user", "x"⟩])], [("old1", [⟨0, "old1", "user", "x"⟩])], [], "p"⟩).session_id ≠
        "old1"
    ∧ dictGet (new_session (some "old1") "new1"
        ⟨[("old1", [⟨"user", "x"⟩])], [("old1", [⟨0, "old1", "user", "x"⟩])], [],
          "p"⟩).state.chat_sessions "old1" = none
    ∧ dictGet (new_session (some "old1") "new1"
        ⟨[("old1", [⟨"user", "x"⟩])], [("old1", [⟨0, "old1", "user", "x"⟩])], [],
          "p"⟩).state.chat_sessions "new1" = some []
    ∧ (new_session (some "old1") "new1"
        ⟨[("old1", [⟨"user", "x"⟩])], [("old1", [⟨0, "old1", "user", "x"⟩])], [],
          "p"⟩).state.session_logs = [("old1", [⟨0, "old1", "user", "x"⟩])]
    ∧ (new_session (some "old1") "new1"
        ⟨[("old1", [⟨"user", "x"⟩])], [("old1", [⟨0, "old1", "user", "x"⟩])], [],
          "p"⟩).state.training_docs = [] :=
  new_session_resets_registry "old1" "new1"
    ⟨[("old1", [⟨"user", "x"⟩])], [("old1", [⟨0, "old1", "user", "x"⟩])], [], "p"⟩
    (by decide)

/-- C9: a chat request whose message is empty or whitespace-only gets the
400 empty-message response and has no effect at all: the cookie, the
registry, the logs, the documents and the prompt are untouched, and the
LLM client is not called. -/
theorem empty_message_rejected_without_effects
    (body_message cookie : Option String) (freshSid : String) (now : Nat)
    (llm : List Message → String → String → String) (st : AppState)
    (h : strip (body_message.getD "") = "") :
    api_chat body_message cookie freshSid now llm st =
      ⟨ChatResult.badRequest "Empty message", cookie, st, false⟩ := by
  simp [api_chat, h]

/-- C9, evaluated: a whitespace-only message leaves a fresh state
entirely unchanged and reports the 400 error without calling the LLM. -/
theorem empty_message_rejected_without_effects_witness :
    api_chat (some "   ") none "s9" 3 (fun _ _ _ => "r") ⟨[], [], [], "p"⟩ =
      ⟨ChatResult.badRequest "Empty message", none, ⟨[], [], [], "p"⟩, false⟩ :=
  empty_message_rejected_without_effects (some "   ") none "s9" 3 (fun _ _ _ => "r")
    ⟨[], [], [], "p"⟩ (by decide)

/-- C10: the system-prompt PUT endpoint always reports success; when the
JSON body lacks the `prompt` field the state — in particular the global
prompt — is unchanged, and in every case the document directory and the
session logs are untouched. -/
theorem set_prompt_missing_field_keeps_prompt
    (body : List (String × String)) (st : AppState) :
    (set_prompt body st).success = true
    ∧ (dictGet body "prompt" = none → (set_prompt body st).state = st)
    ∧ (set_prompt body st).state.chat_sessions = st.chat_sessions
    ∧ (set_prompt body st).state.session_logs = st.session_logs
    ∧ (set_prompt body st).state.training_docs = st.training_docs := by
  refine ⟨rfl, fun h => ?_, rfl, rfl, rfl⟩
  simp [set_prompt, h]

/-- C10, evaluated: a body without a `prompt` field reports success and
leaves the state — prompt included — exactly as it was. -/
theorem set_prompt_missing_field_keeps_prompt_witness :
    dictGet [("other", "x")] "prompt" = none
    ∧ (set_prompt [("other", "x")] ⟨[], [], [], "keep"⟩).state = ⟨[], [], [], "keep"⟩ :=
  ⟨by decide,
   (set_prompt_missing_field_keeps_prompt [("other", "x")] ⟨[], [], [], "keep"⟩).2.1
     (by decide)⟩
